import Mathlib

/-!
Verification development for the LexicognitionAI interview-orchestration
engine.  The Python sources (`src/models.py`, `src/session_manager.py`,
`src/interview_controller.py`, `src/answer_evaluator.py`,
`src/question_generator.py`, `src/content_analyzer.py`, `config.py`) are
shallowly embedded as executable Lean definitions and the behavioural
properties of the specification are proved against them.

Modelling conventions:
* timestamps (`datetime.utcnow()`) are abstract ticks of type `Nat`,
  supplied as an explicit `now` argument to the operations that stamp them;
* uuid-generated identifiers are supplied as explicit arguments (for
  `Session.id`) or fixed to `""` where no claim depends on them
  (`Question.id`, `TextChunk.id`);
* the SQLite session table is a list of session rows; JSON
  (de)serialisation of questions/answers through `model_dump` is the
  identity on the embedded records;
* Python exceptions are values of an explicit error type `PyErr`
  carrying the exception class and message; fallible code returns `Except`;
* JSON numbers are modelled as integers (no claim depends on floats).
-/

/-- Session lifecycle states (`models.SessionStatus`). -/
inductive SessionStatus where
  | in_progress
  | completed
  | paused
deriving DecidableEq, Repr

/-- Answer correctness classification (`models.Correctness`). -/
inductive Correctness where
  | correct
  | partially_correct
  | incorrect
deriving DecidableEq, Repr

/-- Types of questions that can be generated (`models.QuestionType`). -/
inductive QuestionType where
  | why
  | how
  | explain
  | compare
  | apply
deriving DecidableEq, Repr

/-- A generated question (`models.Question`).  The uuid `id` field is kept
but supplied by callers; `difficulty` carries the `1 ≤ d ≤ 5` pydantic
bound through the smart constructor used by the generator. -/
structure Question where
  id : String
  text : String
  type : QuestionType
  expected_concepts : List String
  relevant_chunks : List String
  difficulty : Int
deriving DecidableEq, Repr

/-- Record of a user's answer to a question (`models.AnswerRecord`). -/
structure AnswerRecord where
  question_id : String
  answer : String
  score : Int
  feedback : String
  correctness : Correctness
  timestamp : Nat
deriving DecidableEq, Repr

/-- Result of answer evaluation (`models.EvaluationResult`), without the
construction-time score-range validation, which is modelled by the smart
constructor `EvaluationResult.construct` below. -/
structure EvaluationResult where
  score : Int
  correctness : Correctness
  feedback : String
  factual_errors : List String
  missing_concepts : List String
deriving DecidableEq, Repr

/-- An examination session (`models.Session`). -/
structure Session where
  id : String
  user_id : String
  paper_id : String
  questions : List Question
  answers : List AnswerRecord
  current_question_index : Nat
  status : SessionStatus
  started_at : Nat
  completed_at : Option Nat
deriving DecidableEq, Repr

/-- `Session.current_question` property: the question at
`current_question_index` when `0 <= index < len(questions)`, else `None`. -/
def Session.current_question (s : Session) : Option Question :=
  s.questions.get? s.current_question_index

/-- `Session.is_complete` property: `len(answers) >= len(questions)`. -/
def Session.is_complete (s : Session) : Bool :=
  decide (s.questions.length ≤ s.answers.length)

/-- `Session.total_score` property. -/
def Session.total_score (s : Session) : Int :=
  (s.answers.map (·.score)).sum

/-- Python exception values: the exception class together with its message.
`validationError` stands for pydantic's `ValidationError`. -/
inductive PyErr where
  | valueError (msg : String)
  | typeError (msg : String)
  | attributeError (msg : String)
  | validationError (msg : String)
deriving DecidableEq, Repr

/-- `SessionManager.create_session`: a fresh session with no answers,
index 0 and status `in_progress`; the uuid and the creation timestamp are
explicit arguments. -/
def create_session (user_id paper_id : String) (questions : List Question)
    (sid : String) (now : Nat) : Session :=
  { id := sid
    user_id := user_id
    paper_id := paper_id
    questions := questions
    answers := []
    current_question_index := 0
    status := SessionStatus.in_progress
    started_at := now
    completed_at := none }

/-- The session database: the rows of the `sessions` table. -/
def Store := List Session

/-- `SessionManager.get_session`: the first row with the given id. -/
def get_session (store : Store) (sid : String) : Option Session :=
  List.find? (fun r => r.id = sid) store

/-- `SessionManager.save_session`: update the row matching `s.id` in
place, writing back exactly the four mutable columns (`answers_json`,
`current_question_index`, `status`, `completed_at`); when no row matches,
the store is unchanged (the code only logs an error). -/
def save_session (store : Store) (s : Session) : Store :=
  List.map (fun r =>
    if r.id = s.id then
      { r with
        answers := s.answers
        current_question_index := s.current_question_index
        status := s.status
        completed_at := s.completed_at }
    else r) store

/-- The `AnswerRecord` that `submit_answer` builds from the evaluation. -/
def submit_record (q : Question) (answer : String)
    (evaluation : EvaluationResult) (now : Nat) : AnswerRecord :=
  { question_id := q.id
    answer := answer
    score := evaluation.score
    feedback := evaluation.feedback
    correctness := evaluation.correctness
    timestamp := now }

/-- The pure part of `InterviewController.submit_answer` after a
successful evaluation: append the `AnswerRecord` built from the
evaluation, advance the index, and complete the session iff all
questions are now answered. -/
def session_after_submit (s : Session) (q : Question) (answer : String)
    (evaluation : EvaluationResult) (now : Nat) : Session :=
  let s1 := { s with
    answers := s.answers ++ [submit_record q answer evaluation now]
    current_question_index := s.current_question_index + 1 }
  if s1.is_complete then
    { s1 with status := SessionStatus.completed, completed_at := some now }
  else s1

/-- `InterviewController.submit_answer`.  The answer evaluator is an
external LLM call; its outcome (a result, or a raised exception) is the
`evaluation` argument.  Returns the evaluation result or the raised
`ValueError`, together with the persisted store. -/
def submit_answer (store : Store) (sid answer : String)
    (evaluation : Except PyErr EvaluationResult) (now : Nat) :
    Except PyErr EvaluationResult × Store :=
  match get_session store sid with
  | none =>
      (Except.error (PyErr.valueError ("Session not found: " ++ sid)), store)
  | some session =>
      if session.status = SessionStatus.completed then
        (Except.error (PyErr.valueError "Session is already completed"), store)
      else
        match session.current_question with
        | none =>
            (Except.error (PyErr.valueError "No current question available"),
             store)
        | some q =>
            match evaluation with
            | Except.error e => (Except.error e, store)
            | Except.ok ev =>
                let s2 := session_after_submit session q answer ev now
                (Except.ok ev, save_session store s2)

/-- `InterviewController.pause_session`: succeeds only on an
`in_progress` session. -/
def pause_session (store : Store) (sid : String) : Bool × Store :=
  match get_session store sid with
  | none => (false, store)
  | some session =>
      if session.status ≠ SessionStatus.in_progress then (false, store)
      else
        (true, save_session store { session with status := SessionStatus.paused })

/-- `InterviewController.resume_session`: succeeds only on a `paused`
session. -/
def resume_session (store : Store) (sid : String) : Bool × Store :=
  match get_session store sid with
  | none => (false, store)
  | some session =>
      if session.status ≠ SessionStatus.paused then (false, store)
      else
        (true,
         save_session store { session with status := SessionStatus.in_progress })

/-- Sessions reachable through the controller operations `start`
(`create_session`), successful `submit_answer`, `pause` and `resume`. -/
inductive Reachable : Session → Prop where
  | start (user_id paper_id : String) (questions : List Question)
      (sid : String) (now : Nat) :
      Reachable (create_session user_id paper_id questions sid now)
  | submit (s : Session) (q : Question) (answer : String)
      (evaluation : EvaluationResult) (now : Nat) :
      Reachable s →
      s.status ≠ SessionStatus.completed →
      s.current_question = some q →
      Reachable (session_after_submit s q answer evaluation now)
  | pause (s : Session) :
      Reachable s →
      s.status = SessionStatus.in_progress →
      Reachable { s with status := SessionStatus.paused }
  | resume (s : Session) :
      Reachable s →
      s.status = SessionStatus.paused →
      Reachable { s with status := SessionStatus.in_progress }

/-- The inductive invariant of the session state machine. -/
def SessionInv (s : Session) : Prop :=
  s.answers.length = s.current_question_index ∧
  s.current_question_index ≤ s.questions.length ∧
  (s.status = SessionStatus.completed ↔
     (s.questions.length ≠ 0 ∧
      s.current_question_index = s.questions.length)) ∧
  (s.completed_at.isSome ↔ s.status = SessionStatus.completed)

lemma current_question_lt {s : Session} {q : Question}
    (h : s.current_question = some q) :
    s.current_question_index < s.questions.length := by
  unfold Session.current_question at h
  exact List.get?_eq_some.mp h |>.1

lemma session_after_submit_complete {s : Session} (q : Question)
    (a : String) (ev : EvaluationResult) (now : Nat)
    (hc : s.questions.length ≤ s.answers.length + 1) :
    session_after_submit s q a ev now =
      { s with
        answers := s.answers ++ [submit_record q a ev now]
        current_question_index := s.current_question_index + 1
        status := SessionStatus.completed
        completed_at := some now } := by
  unfold session_after_submit
  simp [Session.is_complete, hc]

lemma session_after_submit_not_complete {s : Session} (q : Question)
    (a : String) (ev : EvaluationResult) (now : Nat)
    (hc : ¬ s.questions.length ≤ s.answers.length + 1) :
    session_after_submit s q a ev now =
      { s with
        answers := s.answers ++ [submit_record q a ev now]
        current_question_index := s.current_question_index + 1 } := by
  unfold session_after_submit
  simp [Session.is_complete, hc]

lemma reachable_inv {s : Session} (h : Reachable s) : SessionInv s := by
  induction h with
  | start u p qs sid now =>
      refine ⟨rfl, Nat.zero_le _, ?_, by simp [create_session]⟩
      simp only [create_session]
      constructor
      · intro hc; cases hc
      · rintro ⟨hne, hz⟩; exact absurd hz.symm hne
  | submit s q a ev now hr hnc hq ih =>
      obtain ⟨h1, h2, h3, h4⟩ := ih
      have hidx := current_question_lt hq
      by_cases hc : s.questions.length ≤ s.answers.length + 1
      · rw [session_after_submit_complete q a ev now hc]
        unfold SessionInv
        dsimp only
        refine ⟨?_, by omega, ?_, by simp⟩
        · simp [h1]
        · constructor
          · intro _; exact ⟨by omega, by omega⟩
          · intro _; rfl
      · rw [session_after_submit_not_complete q a ev now hc]
        unfold SessionInv
        dsimp only
        refine ⟨?_, by omega, ?_, h4⟩
        · simp [h1]
        · constructor
          · intro hst; exact absurd hst hnc
          · rintro ⟨hne, heq⟩; omega
  | pause s hr hst ih =>
      obtain ⟨h1, h2, h3, h4⟩ := ih
      unfold SessionInv
      dsimp only
      refine ⟨h1, h2, ?_, ?_⟩
      · constructor
        · intro hc; cases hc
        · intro hrhs
          have := h3.mpr hrhs
          rw [hst] at this; cases this
      · rw [hst] at h3 h4
        constructor
        · intro hs
          have := h4.mp hs
          cases this
        · intro hc; cases hc
  | resume s hr hst ih =>
      obtain ⟨h1, h2, h3, h4⟩ := ih
      unfold SessionInv
      dsimp only
      refine ⟨h1, h2, ?_, ?_⟩
      · constructor
        · intro hc; cases hc
        · intro hrhs
          have := h3.mpr hrhs
          rw [hst] at this; cases this
      · rw [hst] at h3 h4
        constructor
        · intro hs
          have := h4.mp hs
          cases this
        · intro hc; cases hc

lemma get_session_id {store : Store} {sid : String} {s : Session}
    (h : get_session store sid = some s) : s.id = sid := by
  unfold get_session at h
  have := List.find?_some h
  exact of_decide_eq_true this

lemma get_session_save (store : Store) (s' : Session) (sid : String) :
    get_session (save_session store s') sid =
      (get_session store sid).map (fun r =>
        if r.id = s'.id then
          { r with
            answers := s'.answers
            current_question_index := s'.current_question_index
            status := s'.status
            completed_at := s'.completed_at }
        else r) := by
  unfold get_session save_session
  induction store with
  | nil => rfl
  | cons hd tl ih =>
      by_cases hid : hd.id = s'.id <;> by_cases hhd : hd.id = sid
      · have hs : s'.id = sid := hid.symm.trans hhd
        simp [List.find?, hid, hhd, ih, hs]
      · have hs : ¬ s'.id = sid := fun h => hhd (hid.trans h)
        simp [List.find?, hid, hhd, ih, hs]
      · have hs : ¬ sid = s'.id := fun h => hid (hhd.trans h)
        simp [List.find?, hid, hhd, ih, hs]
      · simp [List.find?, hid, hhd, ih]

lemma get_session_save_found {store : Store} {sid : String} {s s' : Session}
    (h : get_session store sid = some s) (hid : s'.id = s.id) :
    get_session (save_session store s') sid =
      some { s with
             answers := s'.answers
             current_question_index := s'.current_question_index
             status := s'.status
             completed_at := s'.completed_at } := by
  rw [get_session_save, h]
  simp [hid, get_session_id h]

/-- A sample question used to instantiate witnesses. -/
def sampleQ : Question :=
  { id := "q1"
    text := "Why does the proposed method converge faster?"
    type := QuestionType.why
    expected_concepts := ["convergence"]
    relevant_chunks := []
    difficulty := 3 }

/-- A sample evaluation result used to instantiate witnesses. -/
def sampleEval : EvaluationResult :=
  { score := 7
    correctness := Correctness.correct
    feedback := "good"
    factual_errors := []
    missing_concepts := [] }

/-- C1 (amended): for every session reachable through start,
submit_answer, pause and resume, `completed_at` is set iff
`status == completed`; when the question list is nonempty,
`status == completed` holds exactly when `len(answers) == len(questions)`;
but a session started with an empty question list is never `completed`
(it is created `in_progress` and stays so), contrary to the claim's
"immediately-complete" reading. -/
theorem reachable_completion_invariant (s : Session) (h : Reachable s) :
    (s.completed_at.isSome ↔ s.status = SessionStatus.completed) ∧
    (s.questions ≠ [] →
      (s.status = SessionStatus.completed ↔
        s.answers.length = s.questions.length)) ∧
    (s.questions = [] → s.status ≠ SessionStatus.completed) := by
  obtain ⟨h1, h2, h3, h4⟩ := reachable_inv h
  refine ⟨h4, ?_, ?_⟩
  · intro hne
    have hlen : s.questions.length ≠ 0 :=
      fun hz => hne (List.length_eq_zero.mp hz)
    rw [h3, h1]
    constructor
    · rintro ⟨_, he⟩; exact he
    · intro he; exact ⟨hlen, he⟩
  · intro hq hc
    have := (h3.mp hc).1
    simp [hq] at this

/-- C1 counterexample: the session created by `create_session` from an
empty question list has `len(answers) == len(questions)` (both 0) yet its
status is `in_progress`, not `completed`, so the claimed equivalence (and
the "immediately-complete session" for an empty list) fails on the code. -/
theorem empty_questions_session_breaks_completion_iff :
    ¬ ((create_session "u" "p" [] "sid" 0).status = SessionStatus.completed ↔
       (create_session "u" "p" [] "sid" 0).answers.length =
         (create_session "u" "p" [] "sid" 0).questions.length) := by
  decide

/-- Witness for `reachable_completion_invariant` at a freshly started
one-question session. -/
theorem reachable_completion_invariant_witness :
    ((create_session "u" "p" [sampleQ] "s1" 0).completed_at.isSome ↔
      (create_session "u" "p" [sampleQ] "s1" 0).status = SessionStatus.completed) ∧
    ((create_session "u" "p" [sampleQ] "s1" 0).questions ≠ [] →
      ((create_session "u" "p" [sampleQ] "s1" 0).status = SessionStatus.completed ↔
        (create_session "u" "p" [sampleQ] "s1" 0).answers.length =
          (create_session "u" "p" [sampleQ] "s1" 0).questions.length)) ∧
    ((create_session "u" "p" [sampleQ] "s1" 0).questions = [] →
      (create_session "u" "p" [sampleQ] "s1" 0).status ≠ SessionStatus.completed) :=
  reachable_completion_invariant _ (Reachable.start "u" "p" [sampleQ] "s1" 0)

lemma session_after_submit_answers (s : Session) (q : Question) (a : String)
    (ev : EvaluationResult) (now : Nat) :
    (session_after_submit s q a ev now).answers =
      s.answers ++ [submit_record q a ev now] := by
  by_cases hc : s.questions.length ≤ s.answers.length + 1
  · rw [session_after_submit_complete q a ev now hc]
  · rw [session_after_submit_not_complete q a ev now hc]

lemma session_after_submit_index (s : Session) (q : Question) (a : String)
    (ev : EvaluationResult) (now : Nat) :
    (session_after_submit s q a ev now).current_question_index =
      s.current_question_index + 1 := by
  by_cases hc : s.questions.length ≤ s.answers.length + 1
  · rw [session_after_submit_complete q a ev now hc]
  · rw [session_after_submit_not_complete q a ev now hc]

/-- C2: `len(answers) == current_question_index` holds for every session
reachable through the four operations; a successful submit appends exactly
the one record built from the evaluation and increments the index by one;
pause and resume leave `answers` and `current_question_index` unchanged
(they rewrite only the status field of the stored row). -/
theorem answers_track_index :
    (∀ s : Session, Reachable s →
      s.answers.length = s.current_question_index) ∧
    (∀ (s : Session) (q : Question) (a : String) (ev : EvaluationResult)
        (now : Nat),
      (session_after_submit s q a ev now).answers =
        s.answers ++ [submit_record q a ev now] ∧
      (session_after_submit s q a ev now).current_question_index =
        s.current_question_index + 1) ∧
    (∀ (store : Store) (sid : String) (s : Session),
      get_session store sid = some s →
      s.status = SessionStatus.in_progress →
      get_session (pause_session store sid).2 sid =
        some { s with status := SessionStatus.paused }) ∧
    (∀ (store : Store) (sid : String) (s : Session),
      get_session store sid = some s →
      s.status = SessionStatus.paused →
      get_session (resume_session store sid).2 sid =
        some { s with status := SessionStatus.in_progress }) := by
  refine ⟨fun s h => (reachable_inv h).1,
          fun s q a ev now =>
            ⟨session_after_submit_answers s q a ev now,
             session_after_submit_index s q a ev now⟩, ?_, ?_⟩
  · intro store sid s hg hst
    have hps : pause_session store sid =
        (true, save_session store { s with status := SessionStatus.paused }) := by
      unfold pause_session
      rw [hg]
      simp [hst]
    rw [hps]
    exact get_session_save_found hg rfl
  · intro store sid s hg hst
    have hrs : resume_session store sid =
        (true, save_session store { s with status := SessionStatus.in_progress }) := by
      unfold resume_session
      rw [hg]
      simp [hst]
    rw [hrs]
    exact get_session_save_found hg rfl

/-- Witness for `answers_track_index`: the invariant at a freshly started
session, and the pause conjunct at a concrete one-session store. -/
theorem answers_track_index_witness :
    (create_session "u" "p" [sampleQ] "s1" 0).answers.length =
      (create_session "u" "p" [sampleQ] "s1" 0).current_question_index ∧
    get_session
        (pause_session [create_session "u" "p" [sampleQ] "s1" 0] "s1").2 "s1" =
      some { create_session "u" "p" [sampleQ] "s1" 0 with
             status := SessionStatus.paused } :=
  ⟨answers_track_index.1 _ (Reachable.start "u" "p" [sampleQ] "s1" 0),
   answers_track_index.2.2.1 _ "s1" _ rfl rfl⟩

/-- C9: on an `in_progress` session, `pause` succeeds and `resume` then
returns the stored session to exactly its previous state (status back to
`in_progress`, `current_question_index` and `answers` untouched); `pause`
invoked on a session whose status is not `in_progress` (paused or
completed) returns `False` and leaves the store — hence every field of
the session — unchanged. -/
theorem pause_resume_roundtrip :
    (∀ (store : Store) (sid : String) (s : Session),
      get_session store sid = some s →
      s.status = SessionStatus.in_progress →
      (pause_session store sid).1 = true ∧
      get_session (pause_session store sid).2 sid =
        some { s with status := SessionStatus.paused } ∧
      (resume_session (pause_session store sid).2 sid).1 = true ∧
      get_session (resume_session (pause_session store sid).2 sid).2 sid =
        some s) ∧
    (∀ (store : Store) (sid : String) (s : Session),
      get_session store sid = some s →
      s.status ≠ SessionStatus.in_progress →
      pause_session store sid = (false, store)) := by
  constructor
  · intro store sid s hg hst
    have hps : pause_session store sid =
        (true, save_session store { s with status := SessionStatus.paused }) := by
      unfold pause_session
      rw [hg]
      simp [hst]
    have hg2 : get_session (pause_session store sid).2 sid =
        some { s with status := SessionStatus.paused } := by
      rw [hps]
      exact get_session_save_found hg rfl
    have hrs : resume_session (pause_session store sid).2 sid =
        (true, save_session (pause_session store sid).2
          { s with status := SessionStatus.in_progress }) := by
      unfold resume_session
      rw [hg2]
      simp
    refine ⟨by rw [hps], hg2, by rw [hrs], ?_⟩
    have heta : ({ s with status := SessionStatus.in_progress } : Session) = s := by
      cases s with
      | mk id uid pid qs ans idx st sta ca =>
          cases hst
          rfl
    rw [hrs]
    conv_rhs => rw [← heta]
    exact @get_session_save_found (pause_session store sid).2 sid
      { s with status := SessionStatus.paused }
      { s with status := SessionStatus.in_progress } hg2 rfl
  · intro store sid s hg hst
    unfold pause_session
    rw [hg]
    simp [hst]

/-- Witness for `pause_resume_roundtrip` on a concrete one-row store. -/
theorem pause_resume_roundtrip_witness :
    ((pause_session [create_session "u" "p" [sampleQ] "s1" 0] "s1").1 = true ∧
     get_session (pause_session [create_session "u" "p" [sampleQ] "s1" 0] "s1").2 "s1" =
       some { create_session "u" "p" [sampleQ] "s1" 0 with
              status := SessionStatus.paused } ∧
     (resume_session
        (pause_session [create_session "u" "p" [sampleQ] "s1" 0] "s1").2 "s1").1 = true ∧
     get_session
        (resume_session
          (pause_session [create_session "u" "p" [sampleQ] "s1" 0] "s1").2 "s1").2 "s1" =
       some (create_session "u" "p" [sampleQ] "s1" 0)) :=
  pause_resume_roundtrip.1 [create_session "u" "p" [sampleQ] "s1" 0] "s1" _ rfl rfl

/-- C10: when the answer evaluator raises (modelled by an `Except.error`
evaluation outcome) after the session and its current question were
successfully read, `submit_answer` re-raises that error and the store is
returned unchanged: nothing is appended, the index is not advanced, and
status/completed_at keep their prior values, because every mutation and
the save happen only after a successful evaluation. -/
theorem evaluator_failure_leaves_store_unchanged (store : Store)
    (sid a : String) (e : PyErr) (now : Nat) (s : Session) (q : Question)
    (hg : get_session store sid = some s)
    (hnc : s.status ≠ SessionStatus.completed)
    (hq : s.current_question = some q) :
    submit_answer store sid a (Except.error e) now = (Except.error e, store) := by
  unfold submit_answer
  rw [hg]
  simp [hnc, hq]

/-- Witness for `evaluator_failure_leaves_store_unchanged` on a concrete
store. -/
theorem evaluator_failure_leaves_store_unchanged_witness :
    submit_answer [create_session "u" "p" [sampleQ] "s1" 0] "s1" "my answer"
        (Except.error (PyErr.valueError "LLM unavailable")) 5 =
      (Except.error (PyErr.valueError "LLM unavailable"),
       [create_session "u" "p" [sampleQ] "s1" 0]) :=
  evaluator_failure_leaves_store_unchanged _ "s1" "my answer" _ 5 _ sampleQ
    rfl (by decide) rfl

lemma notfound_msg_ne_completed_msg (sid : String) :
    ("Session not found: " ++ sid) ≠ "Session is already completed" := by
  intro h
  have h2 : ("Session not found: " : String).data ++ sid.data =
      ("Session is already completed" : String).data := congrArg String.data h
  have h3 := congrArg (List.take 19) h2
  rw [show (19 : Nat) = ("Session not found: " : String).data.length from rfl,
    List.take_left] at h3
  exact absurd h3 (by decide)

lemma notfound_msg_ne_nocurrent_msg (sid : String) :
    ("Session not found: " ++ sid) ≠ "No current question available" := by
  intro h
  have h2 : ("Session not found: " : String).data ++ sid.data =
      ("No current question available" : String).data := congrArg String.data h
  have h3 := congrArg (List.take 19) h2
  rw [show (19 : Nat) = ("Session not found: " : String).data.length from rfl,
    List.take_left] at h3
  exact absurd h3 (by decide)

/-- C3: `submit_answer` fails with the "Session not found" ValueError when
no row matches the id, with the "already completed" ValueError when the
session status is `completed`, and with the "No current question"
ValueError when `index == len(questions)`; the three error values are
pairwise distinct (distinguishable by their messages — all three are
raised as Python `ValueError`s); otherwise it appends the AnswerRecord
built from the evaluation, increments the index, sets `status=completed`
and stamps `completed_at` iff the new index equals `len(questions)`,
persists the session, and returns the EvaluationResult. -/
theorem submit_answer_spec :
    (∀ (store : Store) (sid a : String) (ev : Except PyErr EvaluationResult)
        (now : Nat),
      get_session store sid = none →
      submit_answer store sid a ev now =
        (Except.error (PyErr.valueError ("Session not found: " ++ sid)),
         store)) ∧
    (∀ (store : Store) (sid a : String) (ev : Except PyErr EvaluationResult)
        (now : Nat) (s : Session),
      get_session store sid = some s →
      s.status = SessionStatus.completed →
      submit_answer store sid a ev now =
        (Except.error (PyErr.valueError "Session is already completed"),
         store)) ∧
    (∀ (store : Store) (sid a : String) (ev : Except PyErr EvaluationResult)
        (now : Nat) (s : Session),
      get_session store sid = some s →
      s.status ≠ SessionStatus.completed →
      s.current_question_index = s.questions.length →
      submit_answer store sid a ev now =
        (Except.error (PyErr.valueError "No current question available"),
         store)) ∧
    (∀ sid : String,
      PyErr.valueError ("Session not found: " ++ sid) ≠
        PyErr.valueError "Session is already completed" ∧
      PyErr.valueError ("Session not found: " ++ sid) ≠
        PyErr.valueError "No current question available" ∧
      PyErr.valueError "Session is already completed" ≠
        PyErr.valueError "No current question available") ∧
    (∀ (store : Store) (sid a : String) (ev : EvaluationResult) (now : Nat)
        (s : Session) (q : Question),
      get_session store sid = some s →
      s.status ≠ SessionStatus.completed →
      s.current_question = some q →
      s.answers.length = s.current_question_index →
      submit_answer store sid a (Except.ok ev) now =
        (Except.ok ev, save_session store (session_after_submit s q a ev now)) ∧
      (session_after_submit s q a ev now).answers =
        s.answers ++ [submit_record q a ev now] ∧
      (session_after_submit s q a ev now).current_question_index =
        s.current_question_index + 1 ∧
      ((session_after_submit s q a ev now).status = SessionStatus.completed ↔
        s.current_question_index + 1 = s.questions.length) ∧
      (s.current_question_index + 1 = s.questions.length →
        (session_after_submit s q a ev now).completed_at = some now) ∧
      (s.current_question_index + 1 ≠ s.questions.length →
        (session_after_submit s q a ev now).completed_at = s.completed_at)) := by
  refine ⟨?_, ?_, ?_, ?_, ?_⟩
  · intro store sid a ev now hg
    unfold submit_answer
    rw [hg]
  · intro store sid a ev now s hg hst
    unfold submit_answer
    rw [hg]
    simp [hst]
  · intro store sid a ev now s hg hst hidx
    have hq : s.current_question = none := by
      unfold Session.current_question
      exact List.get?_eq_none.mpr (le_of_eq hidx.symm)
    unfold submit_answer
    rw [hg]
    simp [hst, hq]
  · intro sid
    refine ⟨?_, ?_, ?_⟩
    · intro h
      exact notfound_msg_ne_completed_msg sid (PyErr.valueError.injEq .. ▸ h ▸ rfl)
    · intro h
      exact notfound_msg_ne_nocurrent_msg sid (PyErr.valueError.injEq .. ▸ h ▸ rfl)
    · decide
  · intro store sid a ev now s q hg hst hq hlen
    have hidx := current_question_lt hq
    refine ⟨?_, session_after_submit_answers s q a ev now,
            session_after_submit_index s q a ev now, ?_, ?_, ?_⟩
    · unfold submit_answer
      rw [hg]
      simp [hst, hq]
    · by_cases hc : s.questions.length ≤ s.answers.length + 1
      · rw [session_after_submit_complete q a ev now hc]
        constructor
        · intro _; omega
        · intro _; rfl
      · rw [session_after_submit_not_complete q a ev now hc]
        constructor
        · intro hco; exact absurd hco hst
        · intro he; omega
    · intro he
      have hc : s.questions.length ≤ s.answers.length + 1 := by omega
      rw [session_after_submit_complete q a ev now hc]
    · intro he
      have hc : ¬ s.questions.length ≤ s.answers.length + 1 := by omega
      rw [session_after_submit_not_complete q a ev now hc]

/-- Witness for `submit_answer_spec`: the not-found branch on an empty
store and the success branch on a concrete one-question session. -/
theorem submit_answer_spec_witness :
    submit_answer ([] : Store) "zzz" "a" (Except.ok sampleEval) 0 =
      (Except.error (PyErr.valueError ("Session not found: " ++ "zzz")),
       ([] : Store)) ∧
    submit_answer [create_session "u" "p" [sampleQ] "s1" 0] "s1" "ans"
        (Except.ok sampleEval) 3 =
      (Except.ok sampleEval,
       save_session [create_session "u" "p" [sampleQ] "s1" 0]
         (session_after_submit (create_session "u" "p" [sampleQ] "s1" 0)
           sampleQ "ans" sampleEval 3)) :=
  ⟨submit_answer_spec.1 [] "zzz" "a" _ 0 rfl,
   (submit_answer_spec.2.2.2.2 [create_session "u" "p" [sampleQ] "s1" 0]
     "s1" "ans" sampleEval 3 (create_session "u" "p" [sampleQ] "s1" 0) sampleQ
     rfl (by decide) rfl rfl).1⟩

/-- JSON values as produced by `json.loads`.  Numbers are modelled as
integers: replies containing fractional or exponent-notation numbers are
treated as parse failures (no claim depends on floats). -/
inductive JsonVal where
  | jnull
  | jbool (b : Bool)
  | jint (n : Int)
  | jstr (s : String)
  | jarr (xs : List JsonVal)
  | jobj (fields : List (String × JsonVal))
deriving Repr

/-- The four JSON whitespace characters. -/
def jsonWsChars : List Char := [' ', '\t', '\n', '\r']

/-- Discard leading JSON whitespace. -/
def dropSpaces : List Char → List Char
  | [] => []
  | ch :: tl => if jsonWsChars.contains ch then dropSpaces tl else ch :: tl

/-- The two-character escapes of JSON strings, as a lookup table (the
`\uXXXX` form is not modelled and fails the parse). -/
def escapeTable : List (Char × Char) :=
  [('"', '"'), ('\\', '\\'), ('/', '/'), ('n', '\n'), ('t', '\t'),
   ('r', '\r'), ('b', Char.ofNat 8), ('f', Char.ofNat 12)]

/-- Resolve a string escape. -/
def unescape (e : Char) : Option Char :=
  (escapeTable.find? (fun pr => pr.1 == e)).map Prod.snd

/-- Scan a JSON string body (after the opening quote), accumulating the
decoded characters in reverse. -/
def scanString (cs : List Char) (seen : List Char) :
    Option (String × List Char) :=
  match cs with
  | [] => none
  | '"' :: tl => some (String.mk seen.reverse, tl)
  | '\\' :: esc :: tl => (unescape esc).bind (fun u => scanString tl (u :: seen))
  | '\\' :: [] => none
  | ch :: tl => scanString tl (ch :: seen)

/-- Accumulate a run of decimal digits into a value. -/
def readDigits (cs : List Char) (val : Nat) : Nat × List Char :=
  match cs with
  | ch :: tl =>
      if ch.isDigit then readDigits tl (val * 10 + (ch.toNat - 48))
      else (val, ch :: tl)
  | [] => (val, [])

/-- The magnitude of a JSON number; a leading zero may not be followed by
another digit (as in Python's json). -/
def readMagnitude (cs : List Char) : Option (Nat × List Char) :=
  match cs with
  | [] => none
  | ch :: tl =>
      if ch = '0' then
        if tl.head?.any Char.isDigit then none else some (0, tl)
      else if ch.isDigit then some (readDigits tl (ch.toNat - 48))
      else none

/-- Whether a fractional part or exponent starts here (floats are not
modelled: they fail the parse). -/
def startsFraction (cs : List Char) : Bool :=
  cs.head?.any (fun ch => ch == '.' || ch == 'e' || ch == 'E')

/-- A JSON integer, with optional leading minus. -/
def readNumber (cs : List Char) : Option (Int × List Char) :=
  let signed : Bool × List Char :=
    match cs with
    | '-' :: tl => (true, tl)
    | _ => (false, cs)
  (readMagnitude signed.2).bind (fun mag =>
    if startsFraction mag.2 then none
    else some (if signed.1 then -(mag.1 : Int) else (mag.1 : Int), mag.2))

/-- Require the remaining letters of a keyword (`null`, `true`,
`false`). -/
def eatKeyword (word : List Char) (cs : List Char) : Option (List Char) :=
  match word, cs with
  | [], _ => some cs
  | w :: ws, ch :: tl => if ch = w then eatKeyword ws tl else none
  | _ :: _, [] => none

mutual

/-- Fuel-bounded JSON value reader: the shallow embedding of the grammar
accepted by `json.loads` (minus floats and `\uXXXX` escapes). -/
def jsonValue : Nat → List Char → Option (JsonVal × List Char)
  | 0, _ => none
  | n + 1, input =>
      match dropSpaces input with
      | [] => none
      | ch :: tl =>
          if ch = '"' then
            (scanString tl []).map (fun sp => (JsonVal.jstr sp.1, sp.2))
          else if ch = '[' then
            match dropSpaces tl with
            | ']' :: tl2 => some (JsonVal.jarr [], tl2)
            | _ => jsonArrayRest n tl []
          else if ch = '\x7b' then
            match dropSpaces tl with
            | '\x7d' :: tl2 => some (JsonVal.jobj [], tl2)
            | _ => jsonObjectRest n tl []
          else if ch = 'n' then
            (eatKeyword ['u', 'l', 'l'] tl).map (fun r => (JsonVal.jnull, r))
          else if ch = 't' then
            (eatKeyword ['r', 'u', 'e'] tl).map
              (fun r => (JsonVal.jbool true, r))
          else if ch = 'f' then
            (eatKeyword ['a', 'l', 's', 'e'] tl).map
              (fun r => (JsonVal.jbool false, r))
          else
            (readNumber (ch :: tl)).map (fun np => (JsonVal.jint np.1, np.2))

/-- Read the elements of a nonempty JSON array after the opening
bracket. -/
def jsonArrayRest : Nat → List Char → List JsonVal →
    Option (JsonVal × List Char)
  | 0, _, _ => none
  | n + 1, input, seen =>
      (jsonValue n input).bind (fun vp =>
        match dropSpaces vp.2 with
        | ']' :: tl => some (JsonVal.jarr (seen ++ [vp.1]), tl)
        | ',' :: tl => jsonArrayRest n tl (seen ++ [vp.1])
        | _ => none)

/-- Read the members of a nonempty JSON object after the opening
brace. -/
def jsonObjectRest : Nat → List Char → List (String × JsonVal) →
    Option (JsonVal × List Char)
  | 0, _, _ => none
  | n + 1, input, seen =>
      match dropSpaces input with
      | '"' :: tl =>
          (scanString tl []).bind (fun kp =>
            match dropSpaces kp.2 with
            | ':' :: tl2 =>
                (jsonValue n tl2).bind (fun vp =>
                  match dropSpaces vp.2 with
                  | '\x7d' :: tl3 =>
                      some (JsonVal.jobj (seen ++ [(kp.1, vp.1)]), tl3)
                  | ',' :: tl3 => jsonObjectRest n tl3 (seen ++ [(kp.1, vp.1)])
                  | _ => none)
            | _ => none)
      | _ => none

end

/-- `json.loads`: read a complete JSON document (trailing whitespace
allowed, trailing garbage rejected). -/
def loads (s : String) : Option JsonVal :=
  (jsonValue (2 * s.length + 2) s.data).bind (fun vp =>
    if dropSpaces vp.2 = [] then some vp.1 else none)

/-- `re.search(r'\{.*\}', response, re.DOTALL)`: the greedy match runs
from the first `\x7b` that has a `\x7d` after it — equivalently the first
`\x7b` overall, whenever a match exists — through the last `\x7d` of the
string. -/
def extractBraces (s : String) : Option String :=
  match s.data.findIdx? (fun c => c == '{'),
        (s.data.reverse.findIdx? (fun c => c == '}')).map
          (fun k => s.data.length - 1 - k) with
  | some i, some j =>
      if i < j then some (String.mk ((s.data.drop i).take (j - i + 1)))
      else none
  | _, _ => none

/-- `settings.min_score` (config.py default). -/
def min_score : Int := 1

/-- `settings.max_score` (config.py default). -/
def max_score : Int := 10

/-- Python dict lookup on a dict built by `json.loads`: later duplicate
keys overwrite earlier ones, so the last binding wins. -/
def pyGet (fields : List (String × JsonVal)) (k : String) : Option JsonVal :=
  (fields.reverse.find? (fun p => p.1 == k)).map Prod.snd

/-- Python `str.lower()`, modelled on the character list (ASCII case
folding; `String.toLower` itself is byte-position-based and does not
reduce in the kernel). -/
def pyLowerStr (s : String) : String := String.mk (s.data.map Char.toLower)

/-- Whitespace recognizer for `int(str)` stripping. -/
def pyWs (c : Char) : Bool := c == ' ' || c == '\t' || c == '\n' || c == '\r'

/-- Digits-only string to `Nat`. -/
def digitsToNat : List Char → Option Nat
  | [] => none
  | cs =>
      if cs.all Char.isDigit then
        some (cs.foldl (fun a c => a * 10 + (c.toNat - 48)) 0)
      else none

/-- Python `int(str)`: strip whitespace, optional sign, decimal digits. -/
def strToInt (s : String) : Option Int :=
  match ((s.data.dropWhile pyWs).reverse.dropWhile pyWs).reverse with
  | '-' :: rest => (digitsToNat rest).map (fun n => -(n : Int))
  | '+' :: rest => (digitsToNat rest).map (fun n => (n : Int))
  | cs => (digitsToNat cs).map (fun n => (n : Int))

/-- Python `int(x)` on a JSON value: identity on ints, 1/0 on bools,
digit parsing (`ValueError` on failure) on strings, `TypeError`
otherwise. -/
def pyInt : JsonVal → Except PyErr Int
  | JsonVal.jint n => Except.ok n
  | JsonVal.jbool b => Except.ok (if b then 1 else 0)
  | JsonVal.jstr s =>
      match strToInt s with
      | some n => Except.ok n
      | none =>
          Except.error
            (PyErr.valueError ("invalid literal for int() with base 10: " ++ s))
  | _ => Except.error (PyErr.typeError "int() argument must be a number or string")

/-- Python `x.lower()` on a JSON value: only strings have the attribute. -/
def pyLower : JsonVal → Except PyErr String
  | JsonVal.jstr s => Except.ok (pyLowerStr s)
  | _ => Except.error (PyErr.attributeError "object has no attribute lower")

/-- The normalized evaluation dict produced by
`AnswerEvaluator._parse_evaluation_response`: score and correctness are
normalized, the remaining fields are passed through as raw JSON values. -/
structure EvalData where
  score : Int
  correctness : String
  feedback : JsonVal
  factual_errors : JsonVal
  missing_concepts : JsonVal

/-- The fixed neutral default evaluation dict. -/
def defaultEvalData : EvalData :=
  { score := 5
    correctness := "partially_correct"
    feedback :=
      JsonVal.jstr "Unable to evaluate answer properly. Please try again."
    factual_errors := JsonVal.jarr []
    missing_concepts := JsonVal.jarr [] }

/-- The validate-and-normalize block of `_parse_evaluation_response`:
`score` is `int()`-converted (default 5) and clamped into
`[min_score, max_score]`; `correctness` is looked up (default
`partially_correct`) and lower-cased; the remaining fields get their
defaults when absent.  A `ValueError` (from `int()`) or
`AttributeError`/`TypeError` (from `.lower()`/`int()` on wrongly-typed
values) is propagated to the enclosing handler. -/
def normalizeFields (fields : List (String × JsonVal)) : Except PyErr EvalData :=
  match (match pyGet fields "score" with
         | none => Except.ok (5 : Int)
         | some v => pyInt v) with
  | Except.error e => Except.error e
  | Except.ok rawScore =>
      match (match pyGet fields "correctness" with
             | none => Except.ok (pyLowerStr "partially_correct")
             | some v => pyLower v) with
      | Except.error e => Except.error e
      | Except.ok corr =>
          Except.ok
            { score := max min_score (min max_score rawScore)
              correctness := corr
              feedback :=
                (pyGet fields "feedback").getD
                  (JsonVal.jstr "No feedback provided")
              factual_errors :=
                (pyGet fields "factual_errors").getD (JsonVal.jarr [])
              missing_concepts :=
                (pyGet fields "missing_concepts").getD (JsonVal.jarr []) }

/-- `AnswerEvaluator._parse_evaluation_response`: extract the brace
substring (falling back to the whole reply), `json.loads` it, normalize.
`json.JSONDecodeError` and `ValueError` are caught and replaced by the
neutral default; any other exception (e.g. the `AttributeError` from
calling `.get` on a non-dict parse result) propagates. -/
def parse_evaluation_response (response : String) : Except PyErr EvalData :=
  match loads ((extractBraces response).getD response) with
  | none => Except.ok defaultEvalData
  | some (JsonVal.jobj fields) =>
      match normalizeFields fields with
      | Except.ok d => Except.ok d
      | Except.error (PyErr.valueError _) => Except.ok defaultEvalData
      | Except.error e => Except.error e
  | some _ => Except.error (PyErr.attributeError "object has no attribute get")

/-- The `Correctness(value)` enum constructor: raises `ValueError` on an
unrecognized value. -/
def correctnessOfString (s : String) : Except PyErr Correctness :=
  if s = "correct" then Except.ok Correctness.correct
  else if s = "partially_correct" then Except.ok Correctness.partially_correct
  else if s = "incorrect" then Except.ok Correctness.incorrect
  else Except.error (PyErr.valueError (s ++ " is not a valid Correctness"))

/-- Pydantic v1 coercion of a JSON value into a `str` field (numbers are
coerced to their decimal representation). -/
def pyStrField : JsonVal → Except PyErr String
  | JsonVal.jstr s => Except.ok s
  | JsonVal.jint n => Except.ok (toString n)
  | _ => Except.error (PyErr.validationError "str type expected")

/-- Pydantic v1 coercion of a JSON value into a `List[str]` field. -/
def pyStrListField : JsonVal → Except PyErr (List String)
  | JsonVal.jarr xs => xs.mapM pyStrField
  | _ => Except.error (PyErr.validationError "value is not a valid list")

/-- Pydantic construction of `models.EvaluationResult`: both the
`Field(ge=1, le=10)` bound and the `validate_score_range` validator
reject a score outside `[1, 10]`. -/
def EvaluationResult.construct (score : Int) (correctness : Correctness)
    (feedback : String) (factual_errors missing_concepts : List String) :
    Except PyErr EvaluationResult :=
  if 1 ≤ score ∧ score ≤ 10 then
    Except.ok { score, correctness, feedback, factual_errors, missing_concepts }
  else Except.error (PyErr.validationError "Score must be between 1 and 10")

/-- `AnswerEvaluator.evaluate`, from the model reply text onward (the
retrieval and LLM calls are external; `response` is the reply content):
parse and normalize the reply, construct the `Correctness` enum member
and the `EvaluationResult`. -/
def evaluate (response : String) : Except PyErr EvaluationResult :=
  match parse_evaluation_response response with
  | Except.error e => Except.error e
  | Except.ok d =>
      match correctnessOfString d.correctness with
      | Except.error e => Except.error e
      | Except.ok corr =>
          match pyStrField d.feedback with
          | Except.error e => Except.error e
          | Except.ok fb =>
              match pyStrListField d.factual_errors with
              | Except.error e => Except.error e
              | Except.ok fes =>
                  match pyStrListField d.missing_concepts with
                  | Except.error e => Except.error e
                  | Except.ok mcs =>
                      EvaluationResult.construct d.score corr fb fes mcs

/-- C4 counterexample: the model reply `"[1, 2]"` contains no well-formed
JSON object (it has no braces at all, and parses as a bare array), yet
`evaluate` raises `AttributeError` — `json.loads` succeeds with a list,
and `list.get` does not exist; `AttributeError` is not caught by the
`except (json.JSONDecodeError, ValueError)` handler — instead of
returning the neutral default. -/
theorem nonobject_reply_raises :
    extractBraces "[1, 2]" = none ∧
    evaluate "[1, 2]" =
      Except.error (PyErr.attributeError "object has no attribute get") :=
  ⟨rfl, rfl⟩

/-- C4 (amended): whenever the brace-delimited candidate substring (or,
absent braces, the whole reply) fails to parse as JSON, `evaluate` does
not raise and returns the fixed neutral default result: score 5 (the
scale midpoint), correctness `partially_correct`, the "unable to
evaluate" feedback text, and empty error/concept lists.  (A reply that
*parses* as a non-object JSON value instead raises `AttributeError`, per
the counterexample.) -/
theorem unparseable_reply_yields_default (response : String)
    (h : loads ((extractBraces response).getD response) = none) :
    evaluate response = Except.ok
      { score := 5
        correctness := Correctness.partially_correct
        feedback := "Unable to evaluate answer properly. Please try again."
        factual_errors := []
        missing_concepts := [] } := by
  have hp : parse_evaluation_response response = Except.ok defaultEvalData := by
    unfold parse_evaluation_response
    rw [h]
  unfold evaluate
  rw [hp]
  rfl

/-- Witness for `unparseable_reply_yields_default` at a reply that is not
JSON at all. -/
theorem unparseable_reply_yields_default_witness :
    loads ((extractBraces "no json here").getD "no json here") = none ∧
    evaluate "no json here" = Except.ok
      { score := 5
        correctness := Correctness.partially_correct
        feedback := "Unable to evaluate answer properly. Please try again."
        factual_errors := []
        missing_concepts := [] } :=
  ⟨rfl, unparseable_reply_yields_default "no json here" rfl⟩

lemma normalizeFields_ok {fields : List (String × JsonVal)} {d : EvalData}
    (h : normalizeFields fields = Except.ok d) :
    ∃ raw corr,
      (match pyGet fields "score" with
       | none => Except.ok (5 : Int)
       | some v => pyInt v) = Except.ok raw ∧
      (match pyGet fields "correctness" with
       | none => Except.ok (pyLowerStr "partially_correct")
       | some v => pyLower v) = Except.ok corr ∧
      d = { score := max min_score (min max_score raw)
            correctness := corr
            feedback :=
              (pyGet fields "feedback").getD
                (JsonVal.jstr "No feedback provided")
            factual_errors :=
              (pyGet fields "factual_errors").getD (JsonVal.jarr [])
            missing_concepts :=
              (pyGet fields "missing_concepts").getD (JsonVal.jarr []) } := by
  unfold normalizeFields at h
  cases hx : (match pyGet fields "score" with
              | none => Except.ok (5 : Int)
              | some v => pyInt v) with
  | error e => rw [hx] at h; simp at h
  | ok raw =>
      rw [hx] at h
      cases hy : (match pyGet fields "correctness" with
                  | none => Except.ok (pyLowerStr "partially_correct")
                  | some v => pyLower v) with
      | error e => rw [hy] at h; simp at h
      | ok corr =>
          rw [hy] at h
          dsimp only at h
          refine ⟨raw, corr, rfl, rfl, ?_⟩
          cases h
          rfl

/-- C5 counterexample: the reply parses successfully, its correctness
value lower-cases to the unrecognized "excellent", and `evaluate` raises
`ValueError` from the `Correctness(...)` enum construction instead of
defaulting to `partially_correct` (the default applies only when the
`correctness` key is absent). -/
theorem unrecognized_correctness_raises :
    parse_evaluation_response
        "\x7b\"score\": 7, \"correctness\": \"EXCELLENT\"\x7d" =
      Except.ok
        { score := 7
          correctness := "excellent"
          feedback := JsonVal.jstr "No feedback provided"
          factual_errors := JsonVal.jarr []
          missing_concepts := JsonVal.jarr [] } ∧
    evaluate "\x7b\"score\": 7, \"correctness\": \"EXCELLENT\"\x7d" =
      Except.error (PyErr.valueError "excellent is not a valid Correctness") :=
  ⟨rfl, rfl⟩

/-- C5 (amended): for every successfully normalized evaluation reply, the
score is the parsed score clamped into `[min_score, max_score]` and the
correctness value is lower-cased; `partially_correct` is substituted only
when the `correctness` key is absent, while a present but unrecognized
value makes `evaluate` fail with the `ValueError` raised by the
`Correctness` enum constructor rather than defaulting. -/
theorem score_clamped_correctness_lowered :
    (∀ (fields : List (String × JsonVal)) (d : EvalData),
      normalizeFields fields = Except.ok d →
      min_score ≤ d.score ∧ d.score ≤ max_score) ∧
    (∀ (fields : List (String × JsonVal)) (d : EvalData) (n : Int),
      normalizeFields fields = Except.ok d →
      pyGet fields "score" = some (JsonVal.jint n) →
      d.score = max min_score (min max_score n)) ∧
    (∀ (fields : List (String × JsonVal)) (d : EvalData) (c : String),
      normalizeFields fields = Except.ok d →
      pyGet fields "correctness" = some (JsonVal.jstr c) →
      d.correctness = pyLowerStr c) ∧
    (∀ (fields : List (String × JsonVal)) (d : EvalData),
      normalizeFields fields = Except.ok d →
      pyGet fields "correctness" = none →
      d.correctness = "partially_correct") ∧
    (∀ (response : String) (d : EvalData) (r : EvaluationResult),
      parse_evaluation_response response = Except.ok d →
      evaluate response = Except.ok r →
      r.score = d.score ∧
      correctnessOfString d.correctness = Except.ok r.correctness) ∧
    (∀ (response : String) (d : EvalData),
      parse_evaluation_response response = Except.ok d →
      d.correctness ≠ "correct" →
      d.correctness ≠ "partially_correct" →
      d.correctness ≠ "incorrect" →
      evaluate response =
        Except.error
          (PyErr.valueError (d.correctness ++ " is not a valid Correctness"))) := by
  refine ⟨?_, ?_, ?_, ?_, ?_, ?_⟩
  · intro fields d h
    obtain ⟨raw, corr, _, _, hd⟩ := normalizeFields_ok h
    subst hd
    dsimp only
    refine ⟨le_max_left _ _, max_le ?_ (min_le_left _ _)⟩
    unfold min_score max_score
    omega
  · intro fields d n h hs
    obtain ⟨raw, corr, hx, _, hd⟩ := normalizeFields_ok h
    rw [hs] at hx
    dsimp only [pyInt] at hx
    cases hx
    subst hd
    rfl
  · intro fields d c h hs
    obtain ⟨raw, corr, _, hy, hd⟩ := normalizeFields_ok h
    rw [hs] at hy
    dsimp only [pyLower] at hy
    cases hy
    subst hd
    rfl
  · intro fields d h hs
    obtain ⟨raw, corr, _, hy, hd⟩ := normalizeFields_ok h
    rw [hs] at hy
    dsimp only at hy
    cases hy
    subst hd
    rfl
  · intro response d r hp he
    unfold evaluate at he
    rw [hp] at he
    dsimp only at he
    cases hc : correctnessOfString d.correctness with
    | error e => rw [hc] at he; simp at he
    | ok corr =>
        rw [hc] at he
        dsimp only at he
        cases hfb : pyStrField d.feedback with
        | error e => rw [hfb] at he; simp at he
        | ok fb =>
            rw [hfb] at he
            dsimp only at he
            cases hfe : pyStrListField d.factual_errors with
            | error e => rw [hfe] at he; simp at he
            | ok fes =>
                rw [hfe] at he
                dsimp only at he
                cases hmc : pyStrListField d.missing_concepts with
                | error e => rw [hmc] at he; simp at he
                | ok mcs =>
                    rw [hmc] at he
                    dsimp only at he
                    unfold EvaluationResult.construct at he
                    split at he
                    · cases he
                      exact ⟨rfl, rfl⟩
                    · simp at he
  · intro response d hp h1 h2 h3
    have hc : correctnessOfString d.correctness =
        Except.error
          (PyErr.valueError (d.correctness ++ " is not a valid Correctness")) := by
      unfold correctnessOfString
      rw [if_neg h1, if_neg h2, if_neg h3]
    unfold evaluate
    rw [hp]
    dsimp only
    rw [hc]

/-- Witness for `score_clamped_correctness_lowered`: an over-range score
42 is clamped to 10 and "Correct" lower-cases to "correct". -/
theorem score_clamped_correctness_lowered_witness :
    (min_score ≤
        ({ score := 10
           correctness := "correct"
           feedback := JsonVal.jstr "No feedback provided"
           factual_errors := JsonVal.jarr []
           missing_concepts := JsonVal.jarr [] } : EvalData).score ∧
     ({ score := 10
        correctness := "correct"
        feedback := JsonVal.jstr "No feedback provided"
        factual_errors := JsonVal.jarr []
        missing_concepts := JsonVal.jarr [] } : EvalData).score ≤ max_score) ∧
    ({ score := 10
       correctness := "correct"
       feedback := JsonVal.jstr "No feedback provided"
       factual_errors := JsonVal.jarr []
       missing_concepts := JsonVal.jarr [] } : EvalData).score =
      max min_score (min max_score 42) :=
  ⟨score_clamped_correctness_lowered.1
     [("score", JsonVal.jint 42), ("correctness", JsonVal.jstr "Correct")]
     _ rfl,
   score_clamped_correctness_lowered.2.1
     [("score", JsonVal.jint 42), ("correctness", JsonVal.jstr "Correct")]
     _ 42 rfl rfl⟩

/-- C6: every successfully constructed `EvaluationResult` has
`min_score ≤ score ≤ max_score`, and construction with a score outside
that range fails with the validation error. -/
theorem construct_score_range :
    (∀ (score : Int) (c : Correctness) (fb : String)
        (fes mcs : List String) (r : EvaluationResult),
      EvaluationResult.construct score c fb fes mcs = Except.ok r →
      min_score ≤ r.score ∧ r.score ≤ max_score) ∧
    (∀ (score : Int) (c : Correctness) (fb : String) (fes mcs : List String),
      score < min_score ∨ max_score < score →
      EvaluationResult.construct score c fb fes mcs =
        Except.error (PyErr.validationError "Score must be between 1 and 10")) := by
  constructor
  · intro score c fb fes mcs r h
    unfold EvaluationResult.construct at h
    split at h
    · rename_i hin
      cases h
      unfold min_score max_score
      exact ⟨hin.1, hin.2⟩
    · simp at h
  · intro score c fb fes mcs hout
    unfold EvaluationResult.construct
    rw [if_neg]
    rintro ⟨hlo, hhi⟩
    unfold min_score max_score at hout
    omega

/-- Witness for `construct_score_range`: score 7 constructs and is in
range; score 11 is rejected. -/
theorem construct_score_range_witness :
    (min_score ≤
        ({ score := 7
           correctness := Correctness.correct
           feedback := "ok"
           factual_errors := []
           missing_concepts := [] } : EvaluationResult).score ∧
     ({ score := 7
        correctness := Correctness.correct
        feedback := "ok"
        factual_errors := []
        missing_concepts := [] } : EvaluationResult).score ≤ max_score) ∧
    EvaluationResult.construct 11 Correctness.correct "ok" [] [] =
      Except.error (PyErr.validationError "Score must be between 1 and 10") :=
  ⟨construct_score_range.1 7 Correctness.correct "ok" [] [] _ rfl,
   construct_score_range.2 11 Correctness.correct "ok" [] []
     (Or.inr (by decide))⟩

/-- Python `needle in hay` substring test, on character lists. -/
def listContains (needle : List Char) : List Char → Bool
  | [] => needle.isEmpty
  | c :: rest => needle.isPrefixOf (c :: rest) || listContains needle rest

/-- Python `needle in hay` on strings. -/
def strContains (needle hay : String) : Bool :=
  listContains needle.data hay.data

/-- The generic-question denylist of
`QuestionGenerator._validate_questions`. -/
def generic_patterns : List String :=
  ["what is the title", "who are the authors", "when was",
   "where was published"]

/-- `QuestionGenerator._validate_questions`: keep exactly the questions
with at least one expected concept appearing (case-insensitively) in the
paper text and whose text matches no generic pattern. -/
def validate_questions (questions : List Question) (paper_text : String) :
    List Question :=
  let paper_lower := pyLowerStr paper_text
  questions.filter (fun q =>
    (q.expected_concepts.any (fun c => strContains (pyLowerStr c) paper_lower))
    && !(generic_patterns.any (fun p => strContains p (pyLowerStr q.text))))

/-- One parsed entry of the generation model's JSON array, as consumed by
the Question-construction loop of `QuestionGenerator.generate` (`None`
models a missing key). -/
structure QData where
  text : Option String
  qtype : Option String
  expected_concepts : List String
  difficulty : Option Int

/-- The `QuestionType(value)` enum constructor, as an `Option`. -/
def questionTypeOfString (s : String) : Option QuestionType :=
  if s = "why" then some QuestionType.why
  else if s = "how" then some QuestionType.how
  else if s = "explain" then some QuestionType.explain
  else if s = "compare" then some QuestionType.compare
  else if s = "apply" then some QuestionType.apply
  else none

/-- The per-entry Question construction of `QuestionGenerator.generate`:
a missing `text` key (KeyError), an unrecognized `type`
(QuestionType ValueError) or an out-of-range difficulty (pydantic
`Field(ge=1, le=5)`) is caught by the `except Exception` handler and the
entry is skipped.  The uuid `id` is fixed to `""`. -/
def tryBuildQuestion (d : QData) : Option Question :=
  match d.text with
  | none => none
  | some t =>
      match questionTypeOfString (pyLowerStr (d.qtype.getD "explain")) with
      | none => none
      | some ty =>
          let diff := d.difficulty.getD 3
          if 1 ≤ diff ∧ diff ≤ 5 then
            some { id := ""
                   text := t
                   type := ty
                   expected_concepts := d.expected_concepts
                   relevant_chunks := []
                   difficulty := diff }
          else none

/-- `QuestionGenerator.generate`, from the parsed reply entries onward
(retrieval, prompting and the LLM call are external; `count` is
`settings.num_questions`): build Questions, validate them, return at
most `count` in generation order. -/
def generate (questions_data : List QData) (paper_text : String)
    (count : Nat) : List Question :=
  let questions := questions_data.filterMap tryBuildQuestion
  let validated := validate_questions questions paper_text
  validated.take count

/-- C7: `generate` returns at most `count` questions, in generation order
(a sublist of the constructed questions), and every returned question has
at least one expected concept appearing as a case-insensitive substring
of the full paper text and a text matching none of the generic denylist
patterns; returning fewer than `count` is an ordinary outcome, not an
error. -/
theorem generate_spec (questions_data : List QData) (paper_text : String)
    (count : Nat) :
    (generate questions_data paper_text count).length ≤ count ∧
    (generate questions_data paper_text count).Sublist
      (questions_data.filterMap tryBuildQuestion) ∧
    ∀ q ∈ generate questions_data paper_text count,
      (q.expected_concepts.any
        (fun c => strContains (pyLowerStr c) (pyLowerStr paper_text))) = true ∧
      (generic_patterns.any
        (fun p => strContains p (pyLowerStr q.text))) = false := by
  unfold generate validate_questions
  refine ⟨List.length_take_le _ _,
          (List.take_sublist _ _).trans (List.filter_sublist _), ?_⟩
  intro q hq
  have hq2 := List.mem_of_mem_take hq
  have hpred := List.of_mem_filter hq2
  simp only [Bool.and_eq_true, Bool.not_eq_true'] at hpred
  exact hpred

/-- Sample parsed entries for the `generate_spec` witness: the first
survives, the second matches the denylist. -/
def sampleQData : List QData :=
  [{ text := some "Why does gradient descent converge here?"
     qtype := some "Why"
     expected_concepts := ["Gradient Descent"]
     difficulty := some 4 },
   { text := some "What is the title of the paper?"
     qtype := some "explain"
     expected_concepts := ["Gradient Descent"]
     difficulty := none }]

/-- The question built from the first sample entry. -/
def sampleQBuilt : Question :=
  { id := ""
    text := "Why does gradient descent converge here?"
    type := QuestionType.why
    expected_concepts := ["Gradient Descent"]
    relevant_chunks := []
    difficulty := 4 }

/-- Witness for `generate_spec` on concrete generation data. -/
theorem generate_spec_witness :
    sampleQBuilt ∈
      generate sampleQData "We analyze Gradient Descent convergence." 5 ∧
    (sampleQBuilt.expected_concepts.any
      (fun c => strContains (pyLowerStr c)
        (pyLowerStr "We analyze Gradient Descent convergence."))) = true ∧
    (generic_patterns.any
      (fun p => strContains p (pyLowerStr sampleQBuilt.text))) = false :=
  ⟨by decide,
   (generate_spec sampleQData "We analyze Gradient Descent convergence." 5).2.2
     sampleQBuilt (by decide)⟩

/-- A section of a parsed document (`models.Section`). -/
structure Section where
  heading : String
  content : String
  page_number : Nat

/-- Structured representation of a parsed PDF (`models.ParsedDocument`);
the key-value `metadata` dict is omitted (no claim involves it). -/
structure ParsedDocument where
  text : String
  sections : List Section

/-- A chunk of text with metadata (`models.TextChunk`); the uuid `id`
field is omitted (nondeterministic, no claim involves it).  The `section`
field is named `sectionLabel` because `section` is a Lean keyword. -/
structure TextChunk where
  text : String
  sectionLabel : String
  page_number : Nat
  chunk_index : Nat
deriving DecidableEq, Repr

/-- `settings.chunk_size` (config.py default), the target chunk length of
the recursive splitter. -/
def chunk_size : Nat := 512

/-- `ContentAnalyzer.chunk_document`.  The recursive length-bounded
splitter (`RecursiveCharacterTextSplitter.split_text`, an external
library) is the `split` parameter; its relevant behaviour is hypothesised
where needed (a nonempty text no longer than the target is returned as a
single chunk).  With sections present, each section is split
independently, each chunk is labelled with the section heading and chunk
indices restart at 0 per section; otherwise the whole text is split under
the label "Main Content". -/
def chunk_document (split : String → List String)
    (doc : ParsedDocument) : List TextChunk :=
  if doc.sections.isEmpty then
    (split doc.text).enum.map (fun p =>
      { text := p.2
        sectionLabel := "Main Content"
        page_number := 0
        chunk_index := p.1 })
  else
    doc.sections.flatMap (fun sec =>
      (split sec.content).enum.map (fun p =>
        { text := p.2
          sectionLabel := sec.heading
          page_number := sec.page_number
          chunk_index := p.1 }))

/-- C8: chunking splits each section independently, labels every chunk
with its section heading, and restarts chunk indices at 0 per section; a
document without sections is chunked whole under "Main Content"; and a
document with two nonempty sections of combined length at most the chunk
target yields exactly 2 chunks, one per section, with section-matching
labels and both with chunk index 0. -/
theorem chunk_document_spec :
    (∀ (split : String → List String) (doc : ParsedDocument),
      doc.sections = [] →
      ((chunk_document split doc).map (fun c => c.text) = split doc.text ∧
       (chunk_document split doc).map (fun c => c.chunk_index) =
         List.range (split doc.text).length ∧
       ∀ c ∈ chunk_document split doc, c.sectionLabel = "Main Content")) ∧
    (∀ (split : String → List String) (doc : ParsedDocument) (c : TextChunk),
      doc.sections ≠ [] →
      (c ∈ chunk_document split doc ↔
        ∃ sec ∈ doc.sections, ∃ i : Nat,
          ∃ h : i < (split sec.content).length,
            c = { text := (split sec.content).get ⟨i, h⟩
                  sectionLabel := sec.heading
                  page_number := sec.page_number
                  chunk_index := i })) ∧
    (∀ (split : String → List String) (h1 h2 c1 c2 : String) (p1 p2 : Nat),
      (∀ t : String, t ≠ "" → t.length ≤ chunk_size → split t = [t]) →
      c1 ≠ "" → c2 ≠ "" → c1.length + c2.length ≤ chunk_size →
      chunk_document split
          { text := c1 ++ c2
            sections := [⟨h1, c1, p1⟩, ⟨h2, c2, p2⟩] } =
        [{ text := c1, sectionLabel := h1, page_number := p1, chunk_index := 0 },
         { text := c2, sectionLabel := h2, page_number := p2, chunk_index := 0 }]) := by
  refine ⟨?_, ?_, ?_⟩
  · intro split doc hsec
    simp only [chunk_document, hsec, List.isEmpty_nil, if_true]
    refine ⟨?_, ?_, ?_⟩
    · rw [List.map_map]
      exact List.enum_map_snd _
    · rw [List.map_map]
      exact List.enum_map_fst _
    · intro c hc
      obtain ⟨p, _, hp⟩ := List.mem_map.mp hc
      rw [← hp]
  · intro split doc c hsec
    have hne : doc.sections.isEmpty = false := by
      cases hs : doc.sections with
      | nil => exact absurd hs hsec
      | cons hd tl => rfl
    simp only [chunk_document, hne, Bool.false_eq_true, if_false]
    constructor
    · intro hc
      obtain ⟨sec, hsecmem, hcm⟩ := List.mem_flatMap.mp hc
      obtain ⟨p, hpm, hp⟩ := List.mem_map.mp hcm
      have hget : (split sec.content).get? p.1 = some p.2 :=
        List.mem_enum_iff_get?.mp hpm
      obtain ⟨hlt, hgeteq⟩ := List.get?_eq_some.mp hget
      exact ⟨sec, hsecmem, p.1, hlt, by rw [← hp, hgeteq]⟩
    · rintro ⟨sec, hsecmem, i, hlt, rfl⟩
      refine List.mem_flatMap.mpr ⟨sec, hsecmem, ?_⟩
      refine List.mem_map.mpr ⟨(i, (split sec.content).get ⟨i, hlt⟩), ?_, rfl⟩
      exact List.mem_enum_iff_get?.mpr (List.get?_eq_get hlt)
  · intro split h1 h2 c1 c2 p1 p2 hsplit hne1 hne2 hlen
    have hs1 : split c1 = [c1] := hsplit c1 hne1 (by omega)
    have hs2 : split c2 = [c2] := hsplit c2 hne2 (by omega)
    simp only [chunk_document]
    rw [if_neg (by simp)]
    simp only [List.flatMap_cons, List.flatMap_nil]
    rw [hs1, hs2]
    rfl

/-- Witness for `chunk_document_spec`: a two-section document with a
singleton-on-short-text splitter yields exactly the two labelled
chunks. -/
theorem chunk_document_spec_witness :
    chunk_document
        (fun t => if t = "" then [] else if t.length ≤ chunk_size then [t] else [])
        { text := "Intro text." ++ "Method text."
          sections := [⟨"Introduction", "Intro text.", 1⟩,
                       ⟨"Methods", "Method text.", 2⟩] } =
      [{ text := "Intro text.", sectionLabel := "Introduction",
         page_number := 1, chunk_index := 0 },
       { text := "Method text.", sectionLabel := "Methods",
         page_number := 2, chunk_index := 0 }] :=
  chunk_document_spec.2.2
    (fun t => if t = "" then [] else if t.length ≤ chunk_size then [t] else [])
    "Introduction" "Methods" "Intro text." "Method text." 1 2
    (fun t ht hlen => by simp [ht, hlen])
    (by decide) (by decide) (by decide)
